import Mathlib

/-!
Verification development for the `minimal-enclave` component of
intel/trustauthority-client-for-go: a shallow embedding of
`Enclave.cpp` (trusted side: `enclave_create_pubkey`,
`enclave_create_report`) and `utils.cpp` (untrusted side:
`get_public_key`), together with theorems settling the specified
properties.

Bytes are modelled as `Nat` (values of C `unsigned char` / `uint8_t`);
C buffers are `List Nat`; 32-bit unsigned arithmetic is explicit
`% 2^32`.  Platform primitives (SGX SDK) are modelled as oracles
supplied through environment records.
-/

set_option maxRecDepth 100000

namespace MinimalEnclave

/-- SGX platform status code `SGX_SUCCESS` (0). -/
def SGX_SUCCESS : Nat := 0

/-- SGX platform status code `SGX_ERROR_UNEXPECTED` (0x0001). -/
def SGX_ERROR_UNEXPECTED : Nat := 0x0001

/-- Modelled from the spec: `E_SIZE_IN_BYTES` is defined in the enclave
EDL, which is not under `src/`; the spec fixes the public exponent at
the 4-byte encoding of 65537. -/
def E_SIZE_IN_BYTES : Nat := 4

/-- Modelled from the spec: `N_SIZE_IN_BYTES` is defined in the enclave
EDL, which is not under `src/`; the spec fixes the modulus at an
algorithm-defined fixed byte length, 384 bytes (RSA-3072) in this
repository. -/
def N_SIZE_IN_BYTES : Nat := 384

/-- Size of a `sgx_sha256_hash_t` digest (SGX SDK ABI): 32 bytes. -/
def SHA256_DIGEST_SIZE : Nat := 32

/-- Size of the `d` user-data field of `sgx_report_data_t`
(SGX SDK ABI constant `SGX_REPORT_DATA_SIZE`): 64 bytes. -/
def SGX_REPORT_DATA_SIZE : Nat := 64

/-- `errno` code `EINVAL` returned by `memcpy_s`. -/
def EINVAL : Nat := 22

/-- `errno` code `ERANGE` returned by `memcpy_s`. -/
def ERANGE : Nat := 34

/-- Modelled from the spec: `rsa_params_t` is declared in the enclave
EDL, which is not under `src/`; the spec's data model fixes it as
fixed-size byte arrays for modulus (N bytes), public exponent
(E bytes), private exponent and the CRT parameters. -/
structure rsa_params_t where
  n : List Nat
  e : List Nat
  d : List Nat
  p : List Nat
  q : List Nat
  dmp1 : List Nat
  dmq1 : List Nat
  iqmp : List Nat
deriving Repr, DecidableEq

/-- The all-zero `rsa_params_t`: value of zero-initialized static
storage and of an ECALL `[out]`-marshalled record. -/
def zeroRsa : rsa_params_t :=
  { n := List.replicate N_SIZE_IN_BYTES 0
    e := List.replicate E_SIZE_IN_BYTES 0
    d := List.replicate N_SIZE_IN_BYTES 0
    p := List.replicate N_SIZE_IN_BYTES 0
    q := List.replicate N_SIZE_IN_BYTES 0
    dmp1 := List.replicate N_SIZE_IN_BYTES 0
    dmq1 := List.replicate N_SIZE_IN_BYTES 0
    iqmp := List.replicate N_SIZE_IN_BYTES 0 }

/-- Overwrite the bytes of `dst` starting at offset `off` with `src`
(the effect of a C `memcpy` into the middle of a buffer). -/
def writeBytes (dst : List Nat) (off : Nat) (src : List Nat) : List Nat :=
  dst.take off ++ src ++ dst.drop (off + src.length)

/-- `memcpy_s(dst+off, destsz, src, count)` from `mbusafecrt`: copying
zero bytes succeeds; a null `src` or `destsz < count` zeroes `destsz`
destination bytes and returns a nonzero `errno` (`EINVAL` resp.
`ERANGE`); otherwise `count` bytes of `src` are copied and 0 is
returned.  The destination buffer is `dst`, the copy lands at byte
offset `off`. -/
def memcpy_s (dst : List Nat) (off : Nat) (destsz : Nat)
    (src : Option (List Nat)) (count : Nat) : Nat × List Nat :=
  if count = 0 then (0, dst)
  else
    match src with
    | none => (EINVAL, writeBytes dst off (List.replicate destsz 0))
    | some s =>
        if destsz < count then (ERANGE, writeBytes dst off (List.replicate destsz 0))
        else (0, writeBytes dst off (s.take count))

/-- The element-wise copy loop `for (i = 0; i < k; i++) dst[i] = src[i]`
over byte arrays. -/
def copyN (dst src : List Nat) (k : Nat) : List Nat :=
  src.take k ++ dst.drop k

/-- The byte stored by the C assignment `e[0] = 0x10001` into an
`unsigned char` array element (truncation to the low byte). -/
def E0_BYTE : Nat := 0x10001 % 2 ^ 8

/-- Process-wide trusted state of `Enclave.cpp`: the static
`g_rsa_key` cache and the `key_pair_created` flag. -/
structure PubkeyState where
  g_rsa_key : rsa_params_t
  key_pair_created : Bool
deriving Repr, DecidableEq

/-- Initial trusted state: zero-initialized static storage,
`key_pair_created = false`. -/
def PubkeyState.init : PubkeyState :=
  { g_rsa_key := zeroRsa, key_pair_created := false }

/-- Outcome of one invocation of the platform primitive
`sgx_create_rsa_key_pair`, modelled from the SGX SDK contract: on
success (status `SGX_SUCCESS`) it writes the generated modulus and the
private/CRT parameters through the supplied pointers; the public
exponent buffer is in/out and is preserved when a nonzero requested
exponent is supplied (the code supplies 0x10001 beforehand).  On
failure it returns a nonzero status; we model the output buffers as
unchanged in that case. -/
structure GenOutcome where
  status : Nat
  n : List Nat
  d : List Nat
  p : List Nat
  q : List Nat
  dmp1 : List Nat
  dmq1 : List Nat
  iqmp : List Nat

/-- Result of one call to `enclave_create_report`.  Besides the
returned status, the record keeps the observable effects of the call:
whether `free(pdata)` ran, the exact byte string passed to
`sgx_sha256_msg` (if reached), and the `report_data.d` bytes passed to
`sgx_create_report` (if reached). -/
structure CreateReportResult where
  status : Nat
  freed : Bool
  hashedMsg : Option (List Nat)
  reportData : Option (List Nat)
deriving Repr, DecidableEq

/-- Result of one call to `enclave_create_pubkey`: the returned status,
the bytes of the caller's `[out]` key record, the new trusted state,
and whether the generation primitive was invoked during the call. -/
structure PubkeyCallResult where
  status : Nat
  key : rsa_params_t
  state : PubkeyState
  invokedGen : Bool
deriving Repr, DecidableEq

/-- `enclave_create_pubkey` from `Enclave.cpp`: writes `0x10001` into
`key->e[0]` and `g_rsa_key.e[0]`; if no key pair was created yet,
invokes `sgx_create_rsa_key_pair` (outcome `gen`), returning its status
on failure, otherwise storing the result in the cache and setting the
flag; finally copies the cached `n` and `e` arrays element-wise into
the caller's record and returns `SGX_SUCCESS`.  The `[out]` record
starts zero-initialized (ECALL marshalling). -/
def enclave_create_pubkey (gen : GenOutcome) (st : PubkeyState) : PubkeyCallResult :=
  let key1 : rsa_params_t := { zeroRsa with e := zeroRsa.e.set 0 E0_BYTE }
  let g1 : rsa_params_t := { st.g_rsa_key with e := st.g_rsa_key.e.set 0 E0_BYTE }
  if st.key_pair_created then
    { status := SGX_SUCCESS
      key := { key1 with n := copyN key1.n g1.n N_SIZE_IN_BYTES
                         e := copyN key1.e g1.e E_SIZE_IN_BYTES }
      state := { st with g_rsa_key := g1 }
      invokedGen := false }
  else if gen.status ≠ SGX_SUCCESS then
    { status := gen.status
      key := key1
      state := { st with g_rsa_key := g1 }
      invokedGen := true }
  else
    let g2 : rsa_params_t :=
      { g1 with n := gen.n, d := gen.d, p := gen.p, q := gen.q,
                dmp1 := gen.dmp1, dmq1 := gen.dmq1, iqmp := gen.iqmp }
    { status := SGX_SUCCESS
      key := { key1 with n := copyN key1.n g2.n N_SIZE_IN_BYTES
                         e := copyN key1.e g2.e E_SIZE_IN_BYTES }
      state := { g_rsa_key := g2, key_pair_created := true }
      invokedGen := true }

/-- `const uint32_t size = nonce_size + E_SIZE_IN_BYTES + N_SIZE_IN_BYTES;`
computed in 32-bit unsigned arithmetic. -/
def scratchSize (nonce_size : Nat) : Nat :=
  (nonce_size + E_SIZE_IN_BYTES + N_SIZE_IN_BYTES) % 2 ^ 32

/-- Oracles for one call to `enclave_create_report`: whether
`malloc(size)` succeeds, the (uninitialized) contents malloc hands
back, the platform SHA-256 function and the status `sgx_sha256_msg`
returns, and the status `sgx_create_report` returns. -/
structure ReportEnv where
  allocOk : Bool
  scratchByte : Nat → Nat
  sha256 : List Nat → List Nat
  sha256Status : Nat
  createReportStatus : Nat

/-- `enclave_create_report` from `Enclave.cpp`: `status` starts at
`SGX_SUCCESS`; allocate `size = nonce_size + E + N` (32-bit) scratch
bytes, returning the pre-initialized status if allocation fails;
`memcpy_s` the nonce, the cached exponent and the cached modulus into
the scratch buffer in order, jumping to CLEANUP (free, return status —
never updated on these paths) on any copy failure; hash the buffer
with `sgx_sha256_msg` into the first 32 bytes of the zero-initialized
64-byte `msg_hash`; copy all 64 bytes of `msg_hash` into
`report_data.d`, setting `SGX_ERROR_UNEXPECTED` on failure; finally
call `sgx_create_report` and return its status after freeing. -/
def enclave_create_report (env : ReportEnv) (g : rsa_params_t)
    (nonce : Option (List Nat)) (nonce_size : Nat) : CreateReportResult :=
  let size := scratchSize nonce_size
  if env.allocOk then
    let pdata := (List.range size).map env.scratchByte
    let r1 := memcpy_s pdata 0 nonce_size nonce nonce_size
    if r1.1 ≠ 0 then
      { status := SGX_SUCCESS, freed := true, hashedMsg := none, reportData := none }
    else
      let r2 := memcpy_s r1.2 nonce_size E_SIZE_IN_BYTES (some g.e) E_SIZE_IN_BYTES
      if r2.1 ≠ 0 then
        { status := SGX_SUCCESS, freed := true, hashedMsg := none, reportData := none }
      else
        let r3 := memcpy_s r2.2 (nonce_size + E_SIZE_IN_BYTES) N_SIZE_IN_BYTES
                    (some g.n) N_SIZE_IN_BYTES
        if r3.1 ≠ 0 then
          { status := SGX_SUCCESS, freed := true, hashedMsg := none, reportData := none }
        else
          let msg := r3.2.take size
          if env.sha256Status ≠ 0 then
            { status := env.sha256Status, freed := true,
              hashedMsg := some msg, reportData := none }
          else
            let msg_hash := writeBytes (List.replicate 64 0) 0
                              ((env.sha256 msg).take SHA256_DIGEST_SIZE)
            let r4 := memcpy_s (List.replicate SGX_REPORT_DATA_SIZE 0) 0 64 (some msg_hash) 64
            if r4.1 ≠ 0 then
              { status := SGX_ERROR_UNEXPECTED, freed := true,
                hashedMsg := some msg, reportData := none }
            else
              { status := env.createReportStatus, freed := true,
                hashedMsg := some msg, reportData := some r4.2 }
  else
    { status := SGX_SUCCESS, freed := false, hashedMsg := none, reportData := none }

/-- Oracles for one call to the untrusted helper `get_public_key`: the
status of the ECALL boundary crossing itself, and — when the boundary
call completes — the trusted-side return code and the marshalled
`rsa_params_t` it produced; plus whether `malloc` succeeds and the
uninitialized bytes it hands back. -/
structure GetPubkeyEnv where
  boundaryStatus : Nat
  retval : Nat
  rsaKey : rsa_params_t
  allocOk : Bool
  heapByte : Nat → Nat

/-- Result of one call to `get_public_key`: the `int` return value, the
write (if any) to `*pp_key` (`some none` means it was set to NULL), the
write (if any) to `*p_key_size`, and whether `malloc` was reached. -/
structure GetPubkeyResult where
  ret : Int
  ppKey : Option (Option (List Nat))
  pKeySize : Option Nat
  mallocCalled : Bool
deriving Repr, DecidableEq

/-- `get_public_key` from `utils.cpp`: invoke the ECALL; if the
boundary call fails or the trusted return code is nonzero, return -1
without touching the outputs; otherwise `malloc(N + E)` into `*pp_key`
(returning -1 if that yields NULL), `memcpy_s` the exponent (destsz
`E_SIZE_IN_BYTES`, count `E_SIZE_IN_BYTES`) then the modulus (destsz
`E_SIZE_IN_BYTES`, count `N_SIZE_IN_BYTES` — as written in the source)
into the buffer, ignoring both return codes, set
`*p_key_size = E + N` and return 0. -/
def get_public_key (env : GetPubkeyEnv) : GetPubkeyResult :=
  if env.boundaryStatus ≠ SGX_SUCCESS ∨ env.retval ≠ 0 then
    { ret := -1, ppKey := none, pKeySize := none, mallocCalled := false }
  else if env.allocOk then
    let buf0 := (List.range (N_SIZE_IN_BYTES + E_SIZE_IN_BYTES)).map env.heapByte
    let r1 := memcpy_s buf0 0 E_SIZE_IN_BYTES (some env.rsaKey.e) E_SIZE_IN_BYTES
    let r2 := memcpy_s r1.2 E_SIZE_IN_BYTES E_SIZE_IN_BYTES (some env.rsaKey.n) N_SIZE_IN_BYTES
    { ret := 0, ppKey := some (some r2.2),
      pKeySize := some (E_SIZE_IN_BYTES + N_SIZE_IN_BYTES), mallocCalled := true }
  else
    { ret := -1, ppKey := some none, pKeySize := none, mallocCalled := true }

/-- A sequence of `n` calls to `enclave_create_pubkey` threading the
trusted state, all within one trusted-context lifetime; returns the
list of (status, output record) pairs, the final state, and the number
of invocations of the generation primitive. -/
def pubkeySeq (gen : GenOutcome) : Nat → PubkeyState →
    List (Nat × rsa_params_t) × PubkeyState × Nat
  | 0, st => ([], st, 0)
  | Nat.succ k, st =>
      let r := enclave_create_pubkey gen st
      let rest := pubkeySeq gen k r.state
      ((r.status, r.key) :: rest.1, rest.2.1,
        (if r.invokedGen then 1 else 0) + rest.2.2)

/-! ## Concrete oracle instances used in witnesses and counterexamples -/

/-- A report environment where every platform primitive succeeds and
malloc hands back zeroed storage. -/
def envReportOk : ReportEnv :=
  { allocOk := true, scratchByte := fun _ => 0,
    sha256 := fun _ => List.replicate SHA256_DIGEST_SIZE 5,
    sha256Status := 0, createReportStatus := 0 }

/-- A report environment whose scratch-buffer allocation fails. -/
def envAllocFail : ReportEnv :=
  { allocOk := false, scratchByte := fun _ => 0,
    sha256 := fun _ => List.replicate SHA256_DIGEST_SIZE 5,
    sha256Status := 0, createReportStatus := 0 }

/-- A generation outcome in which `sgx_create_rsa_key_pair` fails with
`SGX_ERROR_OUT_OF_MEMORY` (3). -/
def genFail : GenOutcome :=
  { status := 3, n := List.replicate N_SIZE_IN_BYTES 0,
    d := List.replicate N_SIZE_IN_BYTES 0, p := List.replicate N_SIZE_IN_BYTES 0,
    q := List.replicate N_SIZE_IN_BYTES 0, dmp1 := List.replicate N_SIZE_IN_BYTES 0,
    dmq1 := List.replicate N_SIZE_IN_BYTES 0, iqmp := List.replicate N_SIZE_IN_BYTES 0 }

/-- A successful generation outcome with a distinctive modulus. -/
def genOk : GenOutcome :=
  { status := SGX_SUCCESS, n := 171 :: List.replicate 383 2,
    d := List.replicate N_SIZE_IN_BYTES 7, p := List.replicate N_SIZE_IN_BYTES 7,
    q := List.replicate N_SIZE_IN_BYTES 7, dmp1 := List.replicate N_SIZE_IN_BYTES 7,
    dmq1 := List.replicate N_SIZE_IN_BYTES 7, iqmp := List.replicate N_SIZE_IN_BYTES 7 }

/-- A trusted-side key record with a nonzero first modulus byte. -/
def rsaKeyC2 : rsa_params_t :=
  { zeroRsa with n := 171 :: List.replicate 383 0, e := List.replicate E_SIZE_IN_BYTES 1 }

/-- An untrusted-helper environment where the boundary call and the
trusted call succeed, malloc succeeds, and malloc hands back bytes all
equal to 90 (a junk marker for uninitialized storage). -/
def envC2 : GetPubkeyEnv :=
  { boundaryStatus := SGX_SUCCESS, retval := 0, rsaKey := rsaKeyC2,
    allocOk := true, heapByte := fun _ => 90 }

/-- An untrusted-helper environment whose ECALL boundary crossing
fails. -/
def envBoundaryFail : GetPubkeyEnv :=
  { boundaryStatus := 1, retval := 0, rsaKey := zeroRsa,
    allocOk := true, heapByte := fun _ => 0 }

/-- An untrusted-helper environment where the trusted call succeeds but
the output-buffer allocation fails. -/
def envAllocFailU : GetPubkeyEnv :=
  { boundaryStatus := SGX_SUCCESS, retval := 0, rsaKey := zeroRsa,
    allocOk := false, heapByte := fun _ => 0 }

/-! ## C4: allocation failure returns the pre-initialized success status -/

/-- Claim C4: in `enclave_create_report`, if allocation of the scratch
buffer fails, the function returns the pre-initialized success status
(it does not report an allocation-failure error code). -/
theorem c4_alloc_failure_returns_success (env : ReportEnv) (g : rsa_params_t)
    (nonce : Option (List Nat)) (nonce_size : Nat) (h : env.allocOk = false) :
    (enclave_create_report env g nonce nonce_size).status = SGX_SUCCESS := by
  simp [enclave_create_report, h]

/-- Witness for C4 at a concrete input: the allocation-failure
environment with a 16-byte zero nonce. -/
theorem c4_alloc_failure_returns_success_witness :
    (enclave_create_report envAllocFail zeroRsa (some (List.replicate 16 0)) 16).status =
      SGX_SUCCESS :=
  c4_alloc_failure_returns_success envAllocFail zeroRsa (some (List.replicate 16 0)) 16 rfl

/-! ## C10: 32-bit wraparound of the scratch-buffer size -/

/-- Claim C10: the scratch-buffer size is computed as
`nonce_size + E_SIZE_IN_BYTES + N_SIZE_IN_BYTES` in 32-bit unsigned
arithmetic, so for caller-controlled `nonce_size` close to `2^32` the
computed size wraps modulo `2^32` and is smaller than `nonce_size`
itself. -/
theorem c10_scratch_size_wraps (nonce_size : Nat) (h1 : nonce_size < 2 ^ 32)
    (h2 : 2 ^ 32 ≤ nonce_size + E_SIZE_IN_BYTES + N_SIZE_IN_BYTES) :
    scratchSize nonce_size =
      nonce_size + E_SIZE_IN_BYTES + N_SIZE_IN_BYTES - 2 ^ 32 ∧
    scratchSize nonce_size < nonce_size := by
  simp only [scratchSize, E_SIZE_IN_BYTES, N_SIZE_IN_BYTES] at h2 ⊢
  omega

/-- Witness for C10 at the concrete wrapping input
`nonce_size = 2^32 - 1`. -/
theorem c10_scratch_size_wraps_witness :
    scratchSize 4294967295 =
      4294967295 + E_SIZE_IN_BYTES + N_SIZE_IN_BYTES - 2 ^ 32 ∧
    scratchSize 4294967295 < 4294967295 :=
  c10_scratch_size_wraps 4294967295 (by decide) (by decide)

/-! ## C8 and C9: return codes and output-parameter frame of
`get_public_key` -/

/-- Claim C8: `get_public_key` returns 0 exactly when the boundary
call succeeds, the trusted return code is zero and the output buffer
allocates; it returns -1 on every failure; and in the boundary-failure
and trusted-failure cases `malloc` is never reached. -/
theorem c8_return_codes (env : GetPubkeyEnv) :
    ((env.boundaryStatus ≠ SGX_SUCCESS ∨ env.retval ≠ 0) →
      (get_public_key env).ret = -1 ∧ (get_public_key env).mallocCalled = false) ∧
    ((env.boundaryStatus = SGX_SUCCESS ∧ env.retval = 0 ∧ env.allocOk = false) →
      (get_public_key env).ret = -1) ∧
    ((env.boundaryStatus = SGX_SUCCESS ∧ env.retval = 0 ∧ env.allocOk = true) →
      (get_public_key env).ret = 0) := by
  unfold get_public_key
  refine ⟨fun hf => ?_, fun hok => ?_, fun hok => ?_⟩
  · rw [if_pos hf]
    exact ⟨rfl, rfl⟩
  · rw [if_neg (by simp [hok.1, hok.2.1]), if_neg (by simp [hok.2.2])]
  · rw [if_neg (by simp [hok.1, hok.2.1]), if_pos hok.2.2]

/-- Witness for C8 at a concrete input: a failing boundary call. -/
theorem c8_return_codes_witness :
    (get_public_key envBoundaryFail).ret = -1 ∧
    (get_public_key envBoundaryFail).mallocCalled = false :=
  (c8_return_codes envBoundaryFail).1 (Or.inl (by decide))

/-- Claim C9: `*p_key_size` is written (with
`E_SIZE_IN_BYTES + N_SIZE_IN_BYTES`) only on the path returning 0 and
is never written on a path returning -1; on the allocation-failure
path `*pp_key` has already been set to null. -/
theorem c9_key_size_frame (env : GetPubkeyEnv) :
    ((get_public_key env).ret = 0 →
      (get_public_key env).pKeySize = some (E_SIZE_IN_BYTES + N_SIZE_IN_BYTES)) ∧
    ((get_public_key env).ret ≠ 0 → (get_public_key env).pKeySize = none) ∧
    (env.boundaryStatus = SGX_SUCCESS → env.retval = 0 → env.allocOk = false →
      (get_public_key env).ppKey = some none) := by
  unfold get_public_key
  refine ⟨?_, ?_, fun h1 h2 h3 => ?_⟩
  · split
    · intro h; simp at h
    · split
      · intro _; rfl
      · intro h; simp at h
  · split
    · intro _; rfl
    · split
      · intro h; simp at h
      · intro _; rfl
  · rw [if_neg (by simp [h1, h2]), if_neg (by simp [h3])]

/-- Witness for C9 at a concrete input: trusted call succeeds, output
allocation fails. -/
theorem c9_key_size_frame_witness :
    (get_public_key envAllocFailU).ppKey = some none ∧
    (get_public_key envAllocFailU).pKeySize = none :=
  ⟨(c9_key_size_frame envAllocFailU).2.2 rfl rfl rfl,
   (c9_key_size_frame envAllocFailU).2.1 (by decide)⟩

/-! ## C1: the three concatenation-copy failure paths return success -/

/-- Claim C1 (code bug, evaluated): with a null nonce pointer and
`nonce_size = 16` the first concatenation `memcpy_s` fails, the call
aborts the sequence (nothing is hashed, no report data is built) and
releases the scratch buffer, but the returned status is `SGX_SUCCESS`
— the pre-initialized status is never updated on the three
concatenation-failure paths, contradicting the specified
unexpected-error return. -/
theorem c1_copy_failure_returns_success_status :
    (enclave_create_report envReportOk zeroRsa none 16).status = SGX_SUCCESS ∧
    (enclave_create_report envReportOk zeroRsa none 16).freed = true ∧
    (enclave_create_report envReportOk zeroRsa none 16).hashedMsg = none ∧
    (enclave_create_report envReportOk zeroRsa none 16).reportData = none := by
  decide

/-! ## C2: the wire-format buffer never receives the modulus -/

/-- Claim C2 (code bug, evaluated): on a successful call the returned
wire buffer starts with the cached exponent bytes, but its remaining
`N_SIZE_IN_BYTES` bytes are 4 zero bytes (written by the failing
`memcpy_s`, whose destination capacity is passed as `E_SIZE_IN_BYTES`
although the count is `N_SIZE_IN_BYTES`) followed by 380 uninitialized
malloc bytes — not the cached modulus. -/
theorem c2_modulus_never_copied :
    (get_public_key envC2).ret = 0 ∧
    (get_public_key envC2).ppKey ≠ some (some (rsaKeyC2.e ++ rsaKeyC2.n)) ∧
    (get_public_key envC2).ppKey =
      some (some (rsaKeyC2.e ++ (List.replicate E_SIZE_IN_BYTES 0 ++
        List.replicate 380 90))) := by
  decide

/-! ## C5: generation failure and the key cache -/

/-- Counterexample to claim C5 as stated: from the initial trusted
state, a first-time call whose generation fails does not leave the
process-wide key cache unmodified (the call stores 0x10001 into
`g_rsa_key.e[0]` before attempting generation). -/
theorem c5_counterexample :
    ¬ ((enclave_create_pubkey genFail PubkeyState.init).status = genFail.status ∧
       (enclave_create_pubkey genFail PubkeyState.init).state.g_rsa_key =
         PubkeyState.init.g_rsa_key ∧
       (enclave_create_pubkey genFail PubkeyState.init).state.key_pair_created = false) := by
  decide

/-- Claim C5 as amended: if key-pair generation fails on a first-time
call, the generation failure code is returned, the `created` flag is
left unset, and the key cache is left unmodified except that its
public-exponent element 0 has been unconditionally set to 0x10001
(truncated to a byte) before the generation attempt. -/
theorem c5_gen_failure_frame (gen : GenOutcome) (st : PubkeyState)
    (h1 : st.key_pair_created = false) (h2 : gen.status ≠ SGX_SUCCESS) :
    (enclave_create_pubkey gen st).status = gen.status ∧
    (enclave_create_pubkey gen st).state.key_pair_created = false ∧
    (enclave_create_pubkey gen st).state.g_rsa_key =
      { st.g_rsa_key with e := st.g_rsa_key.e.set 0 E0_BYTE } := by
  simp [enclave_create_pubkey, h1, h2]

/-- Witness for the amended C5 at a concrete input: generation fails
with `SGX_ERROR_OUT_OF_MEMORY` from the initial state. -/
theorem c5_gen_failure_frame_witness :
    (enclave_create_pubkey genFail PubkeyState.init).status = genFail.status ∧
    (enclave_create_pubkey genFail PubkeyState.init).state.key_pair_created = false ∧
    (enclave_create_pubkey genFail PubkeyState.init).state.g_rsa_key =
      { PubkeyState.init.g_rsa_key with
          e := PubkeyState.init.g_rsa_key.e.set 0 E0_BYTE } :=
  c5_gen_failure_frame genFail PubkeyState.init rfl (by decide)

/-! ## C6: idempotence of `enclave_create_pubkey` after a successful
first generation -/

/-- The caller's `[out]` key record right after the `key->e[0] = 0x10001`
write: zero-initialized except for exponent element 0. -/
def key1Rec : rsa_params_t := { zeroRsa with e := zeroRsa.e.set 0 E0_BYTE }

/-- The cached key after a successful first generation: the generated
modulus and private parameters, with the exponent buffer as left by
the `g_rsa_key.e[0] = 0x10001` write (the generation primitive
preserves the supplied nonzero exponent). -/
def stableG (gen : GenOutcome) : rsa_params_t :=
  { n := gen.n, e := zeroRsa.e.set 0 E0_BYTE, d := gen.d, p := gen.p, q := gen.q,
    dmp1 := gen.dmp1, dmq1 := gen.dmq1, iqmp := gen.iqmp }

/-- The trusted state after a successful first generation. -/
def stableState (gen : GenOutcome) : PubkeyState :=
  { g_rsa_key := stableG gen, key_pair_created := true }

/-- The output record every successful call returns once the cache
holds `stableG gen`. -/
def stableKey (gen : GenOutcome) : rsa_params_t :=
  { key1Rec with n := copyN key1Rec.n (stableG gen).n N_SIZE_IN_BYTES
                 e := copyN key1Rec.e (stableG gen).e E_SIZE_IN_BYTES }

/-- A first-time call whose generation succeeds produces the stable
state and the stable output record, invoking the generator. -/
lemma create_pubkey_first (gen : GenOutcome) (h : gen.status = SGX_SUCCESS) :
    enclave_create_pubkey gen PubkeyState.init =
      { status := SGX_SUCCESS, key := stableKey gen,
        state := stableState gen, invokedGen := true } := by
  simp [enclave_create_pubkey, PubkeyState.init, h, stableKey, stableState, stableG, key1Rec]

/-- Calls from the stable state return the stable output record and
leave the state unchanged, without invoking the generator. -/
lemma create_pubkey_stable (gen : GenOutcome) :
    enclave_create_pubkey gen (stableState gen) =
      { status := SGX_SUCCESS, key := stableKey gen,
        state := stableState gen, invokedGen := false } := by
  simp [enclave_create_pubkey, stableState, stableG, stableKey, key1Rec, List.set_set]

/-- Iterating calls from the stable state yields identical successful
results, the same state, and zero generation events. -/
lemma pubkeySeq_stable (gen : GenOutcome) (k : Nat) :
    pubkeySeq gen k (stableState gen) =
      (List.replicate k (SGX_SUCCESS, stableKey gen), stableState gen, 0) := by
  induction k with
  | zero => rfl
  | succ k ih => simp [pubkeySeq, create_pubkey_stable, ih, List.replicate_succ]

/-- Claim C6: for every sequence of `N ≥ 1` calls to
`enclave_create_pubkey` within one trusted-context lifetime in which
the first call's generation succeeds, all `N` calls return success,
all `N` output key records are byte-identical, and at most one
generation event occurs. -/
theorem c6_pubkey_idempotent (gen : GenOutcome) (N : Nat) (hN : 1 ≤ N)
    (hgen : gen.status = SGX_SUCCESS) :
    (∀ r ∈ (pubkeySeq gen N PubkeyState.init).1, r.1 = SGX_SUCCESS) ∧
    (∀ r ∈ (pubkeySeq gen N PubkeyState.init).1,
      ∀ r2 ∈ (pubkeySeq gen N PubkeyState.init).1, r.2 = r2.2) ∧
    (pubkeySeq gen N PubkeyState.init).2.2 ≤ 1 := by
  obtain ⟨m, rfl⟩ : ∃ m, N = m + 1 := ⟨N - 1, by omega⟩
  have hrun : pubkeySeq gen (m + 1) PubkeyState.init =
      (List.replicate (m + 1) (SGX_SUCCESS, stableKey gen), stableState gen, 1) := by
    simp [pubkeySeq, create_pubkey_first gen hgen, pubkeySeq_stable, List.replicate_succ]
  rw [hrun]
  refine ⟨fun r hr => ?_, fun r hr r2 hr2 => ?_, le_refl 1⟩
  · rw [List.eq_of_mem_replicate hr]
  · rw [List.eq_of_mem_replicate hr, List.eq_of_mem_replicate hr2]

/-- Witness for C6 at a concrete input: two calls with a successful
generation outcome; the generator runs at most once. -/
theorem c6_pubkey_idempotent_witness :
    genOk.status = SGX_SUCCESS ∧
    (pubkeySeq genOk 2 PubkeyState.init).2.2 ≤ 1 :=
  ⟨rfl, (c6_pubkey_idempotent genOk 2 (by decide) rfl).2.2⟩

/-! ## C3 and C7: the report digest -/

/-- A within-bounds `memcpy_s` call with `count ≤ destsz` and a
non-null source succeeds and copies `count` source bytes. -/
lemma memcpy_s_ok (dst : List Nat) (off destsz count : Nat) (s : List Nat)
    (h : count ≤ destsz) :
    memcpy_s dst off destsz (some s) count = (0, writeBytes dst off (s.take count)) := by
  unfold memcpy_s
  rcases Nat.eq_zero_or_pos count with hc | hc
  · subst hc
    simp [writeBytes]
  · rw [if_neg (by omega)]
    simp only
    rw [if_neg (by omega)]

/-- Writing at offset 0 replaces a prefix of the buffer. -/
lemma writeBytes_zero (dst src : List Nat) :
    writeBytes dst 0 src = src ++ dst.drop src.length := by
  unfold writeBytes
  simp

/-- Writing at an offset equal to the length of a leading chunk keeps
that chunk and replaces bytes after it. -/
lemma writeBytes_at (a rest src : List Nat) (off : Nat) (hoff : a.length = off) :
    writeBytes (a ++ rest) off src = a ++ (src ++ rest.drop src.length) := by
  subst hoff
  unfold writeBytes
  rw [List.take_left, ← List.drop_drop, List.drop_left, List.append_assoc]

/-- Shape of a fully successful `enclave_create_report` call: with a
non-null nonce of the declared size, cached key arrays of their
declared sizes, no 32-bit wraparound of the scratch size, a successful
allocation and a successful hash primitive, the call hashes exactly
`nonce ++ e ++ n`, passes the 32-byte digest followed by 32 zero bytes
as the 64-byte report data, frees the scratch buffer and returns the
status of `sgx_create_report`. -/
lemma create_report_success_shape (env : ReportEnv) (g : rsa_params_t)
    (ns : List Nat) (nonce_size : Nat)
    (hns : ns.length = nonce_size)
    (he : g.e.length = E_SIZE_IN_BYTES)
    (hn : g.n.length = N_SIZE_IN_BYTES)
    (hw : nonce_size + E_SIZE_IN_BYTES + N_SIZE_IN_BYTES < 2 ^ 32)
    (ha : env.allocOk = true)
    (hs : env.sha256Status = 0)
    (hlen : (env.sha256 (ns ++ g.e ++ g.n)).length = SHA256_DIGEST_SIZE) :
    enclave_create_report env g (some ns) nonce_size =
      { status := env.createReportStatus, freed := true,
        hashedMsg := some (ns ++ g.e ++ g.n),
        reportData := some (env.sha256 (ns ++ g.e ++ g.n) ++ List.replicate 32 0) } := by
  simp only [E_SIZE_IN_BYTES] at he
  simp only [N_SIZE_IN_BYTES] at hn
  simp only [E_SIZE_IN_BYTES, N_SIZE_IN_BYTES] at hw
  have hsize : scratchSize nonce_size = nonce_size + 388 := by
    simp only [scratchSize, E_SIZE_IN_BYTES, N_SIZE_IN_BYTES]
    omega
  set pdata0 : List Nat := (List.range (scratchSize nonce_size)).map env.scratchByte
    with hpdata0
  have hplen : pdata0.length = nonce_size + 388 := by
    rw [hpdata0, List.length_map, List.length_range, hsize]
  -- the three concatenation copies
  have htake1 : ns.take nonce_size = ns := List.take_of_length_le hns.le
  have htake2 : g.e.take E_SIZE_IN_BYTES = g.e := by
    simp only [E_SIZE_IN_BYTES]
    exact List.take_of_length_le he.le
  have htake3 : g.n.take N_SIZE_IN_BYTES = g.n := by
    simp only [N_SIZE_IN_BYTES]
    exact List.take_of_length_le hn.le
  have hbuf1 : writeBytes pdata0 0 ns = ns ++ pdata0.drop nonce_size := by
    rw [writeBytes_zero, hns]
  have hbuf2 : writeBytes (ns ++ pdata0.drop nonce_size) nonce_size g.e
      = ns ++ (g.e ++ pdata0.drop (nonce_size + 4)) := by
    rw [writeBytes_at _ _ _ _ hns, he, List.drop_drop]
  have hbuf3 : writeBytes (ns ++ (g.e ++ pdata0.drop (nonce_size + 4)))
        (nonce_size + E_SIZE_IN_BYTES) g.n
      = ns ++ (g.e ++ g.n) := by
    rw [← List.append_assoc]
    rw [writeBytes_at (ns ++ g.e) _ _ _ (by simp [hns, he, E_SIZE_IN_BYTES])]
    rw [hn, List.drop_drop]
    have hnil : pdata0.drop (nonce_size + 4 + 384) = [] :=
      List.drop_eq_nil_of_le (by omega)
    rw [hnil, List.append_nil, List.append_assoc]
  have hmsglen : (ns ++ (g.e ++ g.n)).length = nonce_size + 388 := by
    simp [hns, he, hn]
  have htakemsg : (ns ++ (g.e ++ g.n)).take (scratchSize nonce_size)
      = ns ++ (g.e ++ g.n) := by
    rw [hsize]
    exact List.take_of_length_le hmsglen.le
  -- the hash buffer and the report-data copy
  have hdig : (env.sha256 (ns ++ g.e ++ g.n)).take SHA256_DIGEST_SIZE
      = env.sha256 (ns ++ g.e ++ g.n) := List.take_of_length_le hlen.le
  have hhash : writeBytes (List.replicate 64 0) 0
        ((env.sha256 (ns ++ (g.e ++ g.n))).take SHA256_DIGEST_SIZE)
      = env.sha256 (ns ++ (g.e ++ g.n)) ++ List.replicate 32 0 := by
    rw [show ns ++ (g.e ++ g.n) = ns ++ g.e ++ g.n from (List.append_assoc ns g.e g.n).symm,
      hdig, writeBytes_zero, hlen]
    rfl
  have hfinallen : (env.sha256 (ns ++ (g.e ++ g.n)) ++ List.replicate 32 0).length = 64 := by
    rw [List.length_append,
      show ns ++ (g.e ++ g.n) = ns ++ g.e ++ g.n from (List.append_assoc ns g.e g.n).symm,
      hlen]
    rfl
  have hcopy4 : writeBytes (List.replicate SGX_REPORT_DATA_SIZE 0) 0
        ((env.sha256 (ns ++ (g.e ++ g.n)) ++ List.replicate 32 0).take 64)
      = env.sha256 (ns ++ (g.e ++ g.n)) ++ List.replicate 32 0 := by
    rw [List.take_of_length_le hfinallen.le, writeBytes_zero, hfinallen]
    simp [SGX_REPORT_DATA_SIZE]
  -- evaluate the call
  simp only [enclave_create_report, ha, if_true, ← hpdata0]
  rw [memcpy_s_ok _ _ _ _ _ (le_refl nonce_size)]
  simp only [ne_eq, not_true_eq_false, if_neg, reduceIte]
  rw [htake1, hbuf1]
  rw [memcpy_s_ok _ _ _ _ _ (le_refl E_SIZE_IN_BYTES)]
  simp only [ne_eq, reduceIte]
  rw [htake2, hbuf2]
  rw [memcpy_s_ok _ _ _ _ _ (le_refl N_SIZE_IN_BYTES)]
  simp only [ne_eq, reduceIte]
  rw [htake3, hbuf3, htakemsg, hs]
  simp only [ne_eq, reduceIte]
  rw [hhash]
  rw [memcpy_s_ok _ _ _ _ _ (le_refl 64)]
  simp only [ne_eq, reduceIte]
  rw [List.take_of_length_le hfinallen.le] at hcopy4 ⊢
  rw [hcopy4]
  simp [List.append_assoc]

/-- A test key record with fixed exponent and modulus bytes. -/
def rsaKeyW : rsa_params_t :=
  { zeroRsa with e := List.replicate E_SIZE_IN_BYTES 1,
                 n := List.replicate N_SIZE_IN_BYTES 2 }

/-- A 16-byte zero nonce. -/
def nsW : List Nat := List.replicate 16 0

/-- Claim C3: for every call to `enclave_create_report` that reaches
the hashing step, the message hashed is exactly
`nonce ++ cached exponent ++ cached modulus`, computed fresh from the
supplied nonce and the current cached key, and the digest embedded in
the report request (the leading `SHA256_DIGEST_SIZE` bytes of the
user-data field) is exactly its SHA-256. -/
theorem c3_report_digest (env : ReportEnv) (g : rsa_params_t)
    (ns : List Nat) (nonce_size : Nat)
    (hns : ns.length = nonce_size)
    (he : g.e.length = E_SIZE_IN_BYTES)
    (hn : g.n.length = N_SIZE_IN_BYTES)
    (hw : nonce_size + E_SIZE_IN_BYTES + N_SIZE_IN_BYTES < 2 ^ 32)
    (ha : env.allocOk = true)
    (hs : env.sha256Status = 0)
    (hlen : (env.sha256 (ns ++ g.e ++ g.n)).length = SHA256_DIGEST_SIZE) :
    (enclave_create_report env g (some ns) nonce_size).hashedMsg =
      some (ns ++ g.e ++ g.n) ∧
    (enclave_create_report env g (some ns) nonce_size).reportData =
      some (env.sha256 (ns ++ g.e ++ g.n) ++ List.replicate 32 0) ∧
    (env.sha256 (ns ++ g.e ++ g.n) ++ List.replicate 32 0).take SHA256_DIGEST_SIZE =
      env.sha256 (ns ++ g.e ++ g.n) := by
  rw [create_report_success_shape env g ns nonce_size hns he hn hw ha hs hlen]
  exact ⟨rfl, rfl, List.take_left' hlen⟩

/-- Witness for C3 at a concrete input: 16-byte zero nonce and the
fixed test key under the all-success environment. -/
theorem c3_report_digest_witness :
    (enclave_create_report envReportOk rsaKeyW (some nsW) 16).hashedMsg =
      some (nsW ++ rsaKeyW.e ++ rsaKeyW.n) ∧
    (enclave_create_report envReportOk rsaKeyW (some nsW) 16).reportData =
      some (envReportOk.sha256 (nsW ++ rsaKeyW.e ++ rsaKeyW.n) ++ List.replicate 32 0) ∧
    (envReportOk.sha256 (nsW ++ rsaKeyW.e ++ rsaKeyW.n) ++
        List.replicate 32 0).take SHA256_DIGEST_SIZE =
      envReportOk.sha256 (nsW ++ rsaKeyW.e ++ rsaKeyW.n) :=
  c3_report_digest envReportOk rsaKeyW nsW 16 (by decide) (by decide) (by decide)
    (by decide) rfl rfl (by decide)

/-- Counterexample to claim C7 as stated: the SHA-256 digest size (32
bytes) does not equal the user-data field size (64 bytes), and on a
concrete successful call the user-data field passed to
`sgx_create_report` is not the bare digest but the digest followed by
32 zero-padding bytes. -/
theorem c7_counterexample :
    SHA256_DIGEST_SIZE ≠ SGX_REPORT_DATA_SIZE ∧
    (enclave_create_report envReportOk rsaKeyW (some nsW) 16).reportData =
      some (List.replicate 32 5 ++ List.replicate 32 0) ∧
    (List.replicate 32 5 ++ List.replicate 32 0 : List Nat) ≠ List.replicate 32 5 := by
  decide

/-- Claim C7 as amended: the digest is placed at the start of the
fixed-size user-data field of the report-data structure; the digest
(32 bytes) is half the 64-byte field, and the remaining
`SGX_REPORT_DATA_SIZE - SHA256_DIGEST_SIZE` bytes are zero padding
supplied by the zero-initialized hash buffer. -/
theorem c7_digest_zero_padded (env : ReportEnv) (g : rsa_params_t)
    (ns : List Nat) (nonce_size : Nat)
    (hns : ns.length = nonce_size)
    (he : g.e.length = E_SIZE_IN_BYTES)
    (hn : g.n.length = N_SIZE_IN_BYTES)
    (hw : nonce_size + E_SIZE_IN_BYTES + N_SIZE_IN_BYTES < 2 ^ 32)
    (ha : env.allocOk = true)
    (hs : env.sha256Status = 0)
    (hlen : (env.sha256 (ns ++ g.e ++ g.n)).length = SHA256_DIGEST_SIZE) :
    (enclave_create_report env g (some ns) nonce_size).reportData =
      some (env.sha256 (ns ++ g.e ++ g.n) ++
        List.replicate (SGX_REPORT_DATA_SIZE - SHA256_DIGEST_SIZE) 0) ∧
    (env.sha256 (ns ++ g.e ++ g.n) ++
        List.replicate (SGX_REPORT_DATA_SIZE - SHA256_DIGEST_SIZE) 0).length =
      SGX_REPORT_DATA_SIZE := by
  have h32 : SGX_REPORT_DATA_SIZE - SHA256_DIGEST_SIZE = 32 := rfl
  rw [h32, create_report_success_shape env g ns nonce_size hns he hn hw ha hs hlen]
  refine ⟨rfl, ?_⟩
  rw [List.length_append, hlen]
  rfl

/-- Witness for the amended C7 at a concrete input: 16-byte zero nonce
and the fixed test key under the all-success environment. -/
theorem c7_digest_zero_padded_witness :
    (enclave_create_report envReportOk rsaKeyW (some nsW) 16).reportData =
      some (envReportOk.sha256 (nsW ++ rsaKeyW.e ++ rsaKeyW.n) ++
        List.replicate (SGX_REPORT_DATA_SIZE - SHA256_DIGEST_SIZE) 0) ∧
    (envReportOk.sha256 (nsW ++ rsaKeyW.e ++ rsaKeyW.n) ++
        List.replicate (SGX_REPORT_DATA_SIZE - SHA256_DIGEST_SIZE) 0).length =
      SGX_REPORT_DATA_SIZE :=
  c7_digest_zero_padded envReportOk rsaKeyW nsW 16 (by decide) (by decide) (by decide)
    (by decide) rfl rfl (by decide)

end MinimalEnclave
